import Mathlib

/-!
Verification of `get_python_library` from `setup.py` of the pasteboard
repository.

The function reads the ambient interpreter/build state through
`sysconfig.get_config_var`, `sys.abiflags` and `os.getcwd`; we gather those
reads into an explicit `Config` record.  The filesystem is modelled as a
finite list of entries (a path together with a regular-file flag); the code
itself only calls `os.path.exists`, which ignores the flag.  Path functions
(`os.path.join`, `os.path.splitext`, `os.path.normpath`, `os.path.abspath`)
are embedded with their posix semantics (`os.sep = "/"`).

`os.path.join(None, x)` raises `TypeError` in Python 3; the embedding
returns `Except PyErr` to capture that the function can raise when `LIBDIR`
is unset and a multiarch subdirectory (or, in the fallback, `LIBDEST`) is
needed.
-/

/-- Errors that the embedded code can raise.  The only exception reachable in
`get_python_library` is the `TypeError` from `os.path.join(None, ...)`. -/
inductive PyErr where
  | typeError
deriving Repr, DecidableEq

/-- Ambient state read by `get_python_library`: the `sysconfig` variables it
consults, `sys.abiflags`, and the working directory used by
`os.path.abspath`.  `WITH_DYLD` and `MULTIARCH` are only tested for
truthiness in the source, so they are booleans here. -/
structure Config where
  LIBRARY : Option String
  WITH_DYLD : Bool
  MULTIARCH : Bool
  multiarchsubdir : Option String
  LIBDIR : Option String
  LIBDEST : Option String
  abiflags : String
  cwd : String
deriving Repr, DecidableEq

/-- A filesystem entry: a path and whether it is a regular file (as opposed
to a directory or other entry). -/
structure FsEntry where
  path : String
  isFile : Bool
deriving Repr, DecidableEq

/-- The filesystem, as a finite set of existing entries. -/
abbrev Filesystem := List FsEntry

/-- `os.path.exists p`: some entry (file or directory) has this path. -/
def fsExists (fs : Filesystem) (p : String) : Bool :=
  fs.any (fun e => e.path == p)

/-- `os.path.isfile p`: an entry with this path exists and is a regular
file.  (The source never calls this; it is used to state claims about
regular files.) -/
def fsIsFile (fs : Filesystem) (p : String) : Bool :=
  fs.any (fun e => e.path == p && e.isFile)

/-- `s.startswith(t)`, computed on the underlying character lists (the
core `String.startsWith` does not reduce in the kernel). -/
def strStartsWith (s t : String) : Bool :=
  t.toList.isPrefixOf s.toList

/-- `s.endswith(t)`, computed on the underlying character lists. -/
def strEndsWith (s t : String) : Bool :=
  t.toList.reverse.isPrefixOf s.toList.reverse

/-- `s[n:]`: drop the first `n` characters. -/
def strDrop (s : String) (n : Nat) : String :=
  String.mk (s.toList.drop n)

/-- Split a character list at every occurrence of `c`, keeping empty
pieces, as Python `str.split(sep)` does for a one-character separator. -/
def splitCharAux (c : Char) : List Char → List Char → List (List Char)
  | [], acc => [acc.reverse]
  | x :: xs, acc =>
      if x = c then acc.reverse :: splitCharAux c xs []
      else splitCharAux c xs (x :: acc)

/-- Python `s.split(c)` for a one-character separator `c`. -/
def strSplit (s : String) (c : Char) : List String :=
  (splitCharAux c s.toList []).map String.mk

/-- Posix `os.path.join` on two components: if the second is absolute it
wins; otherwise a `/` is inserted unless the first part is empty or already
ends in `/`. -/
def pjoin (a b : String) : String :=
  if strStartsWith b "/" then b
  else if a = "" ∨ strEndsWith a "/" then a ++ b
  else a ++ "/" ++ b

/-- Posix `os.path.splitext(p)[1]`: the extension of the last path
component, i.e. the suffix from its last dot, provided some character
before that dot is not itself a dot (so `.bashrc` has no extension). -/
def splitextExt (p : String) : String :=
  let base := (strSplit p '/').getLastD ""
  let parts := strSplit base '.'
  if 2 ≤ parts.length ∧ parts.dropLast.any (fun s => s ≠ "") then
    "." ++ parts.getLastD ""
  else ""

/-- Python `s[-2:]`: the last two characters (the whole string when it is
shorter). -/
def lastTwo (s : String) : String :=
  String.mk (s.toList.drop (s.length - 2))

/-- The component-folding loop of posix `os.path.normpath`: drop empty and
`.` components, and let `..` cancel a previous real component (except at
the root, or after an uncancellable `..`). -/
def normpathComps (initialSlashes : Nat) (comps : List String) : List String :=
  comps.foldl
    (fun acc comp =>
      if comp = "" ∨ comp = "." then acc
      else if comp ≠ ".." ∨ (initialSlashes = 0 ∧ acc = []) ∨
          acc.getLast? = some ".." then acc ++ [comp]
      else if acc ≠ [] then acc.dropLast
      else acc)
    []

/-- Posix `os.path.normpath`. -/
def normpath (p : String) : String :=
  if p = "" then "."
  else
    let initialSlashes : Nat :=
      if strStartsWith p "/" then
        (if strStartsWith p "//" ∧ ¬ strStartsWith p "///" then 2 else 1)
      else 0
    let comps := normpathComps initialSlashes (strSplit p '/')
    let joined := String.mk (List.replicate initialSlashes '/') ++
      String.intercalate "/" comps
    if joined = "" then "." else joined

/-- Posix `os.path.abspath`, with the working directory passed explicitly. -/
def abspath (cwd p : String) : String :=
  if strStartsWith p "/" then normpath p else normpath (pjoin cwd p)

/-- Truthiness of the `multiarchsubdir` config value (`if masd:`): present
and nonempty. -/
def masdTruthy : Option String → Bool
  | none => false
  | some s => s ≠ ""

/-- `masd[len(os.sep):]` applied when `masd.startswith(os.sep)`: strip one
leading `/`. -/
def stripLeadSep (s : String) : String :=
  if strStartsWith s "/" then strDrop s 1 else s

/-- The guard of line 20 of `setup.py`: the search is entered when
`LIBRARY` is `None` or `os.path.splitext(LIBRARY)[1][-2:] == ".a"`. -/
def enterSearch : Option String → Bool
  | none => true
  | some p => lastTwo (splitextExt p) == ".a"

/-- `candidate_lib_prefixes = ["", "lib"]`. -/
def candidate_lib_prefixes : List String := ["", "lib"]

/-- `candidate_extensions`: `[".lib", ".so", ".a"]`, with `".dylib"`
inserted at the front when `WITH_DYLD` is truthy. -/
def candidateExtensions (c : Config) : List String :=
  if c.WITH_DYLD then [".dylib", ".lib", ".so", ".a"] else [".lib", ".so", ".a"]

/-- `"".join(python_version.split(".")[:2])`: the first two dotted
components concatenated without a separator. -/
def twoDigit (v : String) : String :=
  String.join ((strSplit v '.').take 2)

/-- `candidate_versions`: starts as `[python_version]`; when the version is
truthy, `""` is appended and the concatenated form is inserted at index 0,
yielding `[concatenated, full, ""]`. -/
def candidateVersions (python_version : String) : List String :=
  if python_version ≠ "" then [twoDigit python_version, python_version, ""]
  else [python_version]

/-- `candidate_abiflags`: `[abiflags]`, with `""` appended when `abiflags`
is truthy. -/
def candidateAbiflags (c : Config) : List String :=
  if c.abiflags ≠ "" then [c.abiflags, ""] else [c.abiflags]

/-- The `libdir` computation of lines 43-54: start from `LIBDIR`; when
`MULTIARCH` and a truthy `multiarchsubdir` are present, join the (possibly
sep-stripped) subdirectory onto it, which raises `TypeError` if `LIBDIR` is
`None`; when the result is still `None`, fall back to
`abspath(join(LIBDEST, "..", "libs"))`, which raises `TypeError` if
`LIBDEST` is `None`. -/
def computeLibdir (c : Config) : Except PyErr String :=
  let step : Except PyErr (Option String) :=
    if c.MULTIARCH then
      if masdTruthy c.multiarchsubdir then
        match c.LIBDIR with
        | some d => .ok (some (pjoin d (stripLeadSep (c.multiarchsubdir.getD ""))))
        | none => .error .typeError
      else .ok c.LIBDIR
    else .ok c.LIBDIR
  match step with
  | .error e => .error e
  | .ok (some d) => .ok d
  | .ok none =>
      match c.LIBDEST with
      | some dest => .ok (abspath c.cwd (pjoin (pjoin dest "..") "libs"))
      | none => .error .typeError

/-- The candidate generator of lines 56-64:
`itertools.product(prefixes, extensions, versions, abiflags)` varies the
rightmost axis fastest, so the nesting is prefix outermost, then extension,
then version, then ABI flags innermost; each tuple is assembled as
`os.path.join(libdir, pre + "python" + ver + abi + ext)`. -/
def candidatePaths (c : Config) (python_version libdir : String) : List String :=
  candidate_lib_prefixes.flatMap (fun pre =>
    (candidateExtensions c).flatMap (fun ext =>
      (candidateVersions python_version).flatMap (fun ver =>
        (candidateAbiflags c).map (fun abi =>
          pjoin libdir (pre ++ "python" ++ ver ++ abi ++ ext)))))

/-- `get_python_library(python_version)` of `setup.py` lines 13-74:
return `LIBRARY` unless it is absent or a static archive; in that case
enumerate the candidates over the computed library directory and return the
first one for which `os.path.exists` holds, keeping the original `LIBRARY`
value when none exists. -/
def get_python_library (c : Config) (fs : Filesystem) (python_version : String) :
    Except PyErr (Option String) :=
  if enterSearch c.LIBRARY then
    match computeLibdir c with
    | .error e => .error e
    | .ok libdir =>
        match (candidatePaths c python_version libdir).find?
            (fun cand => fsExists fs cand) with
        | some cand => .ok (some cand)
        | none => .ok c.LIBRARY
  else .ok c.LIBRARY

deriving instance DecidableEq for Except

/-- A Linux-like configuration with no `LIBRARY` value, a plain `LIBDIR`,
no multiarch, no dyld support and empty ABI flags. -/
def cfg8 : Config :=
  { LIBRARY := none, WITH_DYLD := false, MULTIARCH := false,
    multiarchsubdir := none, LIBDIR := some "/usr/lib", LIBDEST := none,
    abiflags := "", cwd := "/" }

/-- `cfg8` with a static-archive `LIBRARY` value. -/
def cfgStatic : Config := { cfg8 with LIBRARY := some "python3.10.a" }

/-- `cfg8` with a dynamic (shared-object) `LIBRARY` value. -/
def cfgDyn : Config := { cfg8 with LIBRARY := some "libpython3.10.so" }

/-- `cfg8` with `LIBDIR` unset while `MULTIARCH` and a nonempty
`multiarchsubdir` are declared. -/
def cfgNoLibdir : Config :=
  { cfg8 with
    LIBDIR := none
    MULTIARCH := true
    multiarchsubdir := some "/x86_64-linux-gnu" }

/-- `cfg8` with `MULTIARCH` declared and a `/`-prefixed subdirectory. -/
def cfgMA : Config :=
  { cfg8 with MULTIARCH := true, multiarchsubdir := some "/x86_64-linux-gnu" }

/-- `cfg8` with no `LIBDIR` but a `LIBDEST`, exercising the sibling-`libs`
fallback. -/
def cfgFallback : Config :=
  { cfg8 with LIBDIR := none, LIBDEST := some "/py/lib/python3.10" }

/-- A filesystem holding exactly the regular file
`/usr/lib/libpython3.10.so`. -/
def fsOne : Filesystem := [⟨"/usr/lib/libpython3.10.so", true⟩]

/-! ## Helper lemmas -/

/-- When the search is entered, the directory computation succeeds and the
candidate scan finds a first existing path, the function returns that
path. -/
lemma search_hit_result (c : Config) (fs : Filesystem) (pv d cand : String)
    (h1 : enterSearch c.LIBRARY = true) (h2 : computeLibdir c = .ok d)
    (h3 : (candidatePaths c pv d).find? (fun x => fsExists fs x) = some cand) :
    get_python_library c fs pv = .ok (some cand) := by
  unfold get_python_library
  simp [h1, h2, h3]

/-- When the search is entered, the directory computation succeeds and no
candidate exists, the function returns the original `LIBRARY` value. -/
lemma no_hit_returns_library (c : Config) (fs : Filesystem) (pv d : String)
    (h1 : enterSearch c.LIBRARY = true) (h2 : computeLibdir c = .ok d)
    (h3 : ∀ cand ∈ candidatePaths c pv d, fsExists fs cand = false) :
    get_python_library c fs pv = .ok c.LIBRARY := by
  have hf : (candidatePaths c pv d).find? (fun x => fsExists fs x) = none := by
    rw [List.find?_eq_none]
    intro x hx
    simp [h3 x hx]
  unfold get_python_library
  simp [h1, h2, hf]

/-- `find?` returns the element at the first index whose predicate holds. -/
lemma find?_eq_getD_of_first {α : Type} (p : α → Bool) (l : List α) (d : α) :
    ∀ i : Nat, i < l.length → p (l.getD i d) = true →
      (∀ j, j < i → p (l.getD j d) = false) →
      l.find? p = some (l.getD i d) := by
  induction l with
  | nil => intro i hi; exact absurd hi (by simp)
  | cons a t ih =>
      intro i hi hhit hprev
      cases i with
      | zero =>
          rw [List.getD_cons_zero] at hhit ⊢
          exact List.find?_cons_of_pos t hhit
      | succ n =>
          have hpa : p a = false := by
            have := hprev 0 (Nat.succ_pos n)
            rwa [List.getD_cons_zero] at this
          rw [List.getD_cons_succ] at hhit ⊢
          rw [List.find?_cons_of_neg t (by simp [hpa])]
          refine ih n (by simpa using hi) hhit ?_
          intro j hj
          have := hprev (j + 1) (Nat.succ_lt_succ hj)
          rwa [List.getD_cons_succ] at this

/-! ## Claims -/

/-- C1 (counterexample): for the version descriptor "3.10" the candidate
version axis is ["310", "3.10", ""], so the full dotted form "3.10" is NOT
tried before the concatenated form "310" — the concatenated form comes
first, refuting the claimed full-version-first order. -/
theorem C1_counterexample :
    candidateVersions "3.10" = ["310", "3.10", ""] ∧
    ¬ List.indexOf "3.10" (candidateVersions "3.10") <
        List.indexOf "310" (candidateVersions "3.10") := by
  decide

/-- C1 (amended): for every nonempty version descriptor, the version axis
is ordered with the first-two-components concatenated form first, then the
full dotted descriptor, then the empty string. -/
theorem C1_version_axis_order (pv : String) (h : pv ≠ "") :
    candidateVersions pv = [twoDigit pv, pv, ""] := by
  simp [candidateVersions, h]

/-- C1 witness: the amended order at the concrete descriptor "3.10". -/
theorem C1_version_axis_order_witness :
    ("3.10" : String) ≠ "" ∧
    candidateVersions "3.10" = [twoDigit "3.10", "3.10", ""] :=
  ⟨by decide, C1_version_axis_order "3.10" (by decide)⟩

/-- C2: when `LIBRARY` is present and its extension check does not flag a
static archive, `get_python_library` returns it unchanged on every
filesystem (so no filesystem probe can influence the result). -/
theorem C2_fast_path (c : Config) (pv p : String) (hLib : c.LIBRARY = some p)
    (hExt : lastTwo (splitextExt p) ≠ ".a") :
    ∀ fs : Filesystem, get_python_library c fs pv = .ok (some p) := by
  intro fs
  have he : enterSearch (some p) = false := by
    simp [enterSearch, hExt]
  unfold get_python_library
  rw [hLib]
  simp [he]

/-- C2 witness: a shared-object `LIBRARY` value is returned unchanged even
on a filesystem holding a matching candidate. -/
theorem C2_fast_path_witness :
    cfgDyn.LIBRARY = some "libpython3.10.so" ∧
    lastTwo (splitextExt "libpython3.10.so") ≠ ".a" ∧
    get_python_library cfgDyn fsOne "3.10" = .ok (some "libpython3.10.so") :=
  ⟨rfl, by decide, C2_fast_path cfgDyn "3.10" "libpython3.10.so" rfl (by decide) fsOne⟩

/-- C3 (counterexample): with a static-archive `LIBRARY` value the search
is entered, and on an empty filesystem the function returns that original
static value, not the unresolved sentinel `none`. -/
theorem C3_counterexample :
    enterSearch cfgStatic.LIBRARY = true ∧
    get_python_library cfgStatic [] "3.10" = .ok (some "python3.10.a") := by
  decide

/-- C3 (amended): when the search is entered, the library directory is
computed without error and no generated candidate exists on disk, the
function returns the original `LIBRARY` value without raising — `none`
exactly when `LIBRARY` was absent, the untouched static value otherwise. -/
theorem C3_no_candidate_keeps_library (c : Config) (fs : Filesystem)
    (pv d : String) (h1 : enterSearch c.LIBRARY = true)
    (h2 : computeLibdir c = .ok d)
    (h3 : ∀ cand ∈ candidatePaths c pv d, fsExists fs cand = false) :
    get_python_library c fs pv = .ok c.LIBRARY :=
  no_hit_returns_library c fs pv d h1 h2 h3

/-- C3 witness: with `LIBRARY` absent and an empty filesystem the function
returns the sentinel `none`. -/
theorem C3_no_candidate_keeps_library_witness :
    get_python_library cfg8 [] "3.10" = .ok none :=
  C3_no_candidate_keeps_library cfg8 [] "3.10" "/usr/lib" (by decide)
    (by decide) (by decide)

/-- C8: on a configuration entering the search whose library directory
holds exactly the regular file `libpython3.10.so`, with version descriptor
"3.10", empty ABI flags and `WITH_DYLD` unset, the function returns
`/usr/lib/libpython3.10.so`. -/
theorem C8_concrete_lookup :
    get_python_library cfg8 fsOne "3.10" =
      .ok (some "/usr/lib/libpython3.10.so") := by
  decide

/-- C9: the locator is deterministic — identical configuration, version
descriptor and an unchanged filesystem yield identical results (the
embedding is a pure function of these inputs, reflecting that the source
only performs read-only existence probes). -/
theorem C9_deterministic (c : Config) (fs1 fs2 : Filesystem) (pv : String)
    (hfs : fs1 = fs2) :
    get_python_library c fs1 pv = get_python_library c fs2 pv := by
  rw [hfs]

/-- C9 witness: two runs on the same concrete inputs agree. -/
theorem C9_deterministic_witness :
    get_python_library cfg8 fsOne "3.10" = get_python_library cfg8 fsOne "3.10" :=
  C9_deterministic cfg8 fsOne fsOne "3.10" rfl

/-- A filesystem holding the regular files `/usr/lib/libpython3.10.so`
(candidate index 13) and `/usr/lib/libpython3.10.a` (candidate index 16). -/
def fsTwoHits : Filesystem :=
  [⟨"/usr/lib/libpython3.10.so", true⟩, ⟨"/usr/lib/libpython3.10.a", true⟩]

/-- A filesystem whose only entry at `/usr/lib/libpython3.10.so` is a
directory, not a regular file. -/
def fsDirOnly : Filesystem := [⟨"/usr/lib/libpython3.10.so", false⟩]

/-- C4: the candidate enumeration is the nested product with prefix
outermost, then extension, then version, then ABI suffix innermost, each
candidate being `<library_dir>/<pre>python<ver><abi><ext>`; and whenever
position `i` is the first existing candidate, the function returns it, so
no later candidate matters. -/
theorem C4_nested_order_first_hit (c : Config) (fs : Filesystem) (pv d : String)
    (i : Nat) (h1 : enterSearch c.LIBRARY = true)
    (h2 : computeLibdir c = .ok d)
    (hlen : i < (candidatePaths c pv d).length)
    (hhit : fsExists fs ((candidatePaths c pv d).getD i "") = true)
    (hprev : ∀ j, j < i → fsExists fs ((candidatePaths c pv d).getD j "") = false) :
    candidatePaths c pv d =
      candidate_lib_prefixes.flatMap (fun pre =>
        (candidateExtensions c).flatMap (fun ext =>
          (candidateVersions pv).flatMap (fun ver =>
            (candidateAbiflags c).map (fun abi =>
              pjoin d (pre ++ "python" ++ ver ++ abi ++ ext))))) ∧
    get_python_library c fs pv = .ok (some ((candidatePaths c pv d).getD i "")) := by
  refine ⟨rfl, ?_⟩
  exact search_hit_result c fs pv d _ h1 h2
    (find?_eq_getD_of_first (fun x => fsExists fs x) (candidatePaths c pv d)
      "" i hlen hhit hprev)

/-- C4 witness: with hits at candidate indices 13 and 16, the function
returns the index-13 candidate `/usr/lib/libpython3.10.so`. -/
theorem C4_nested_order_first_hit_witness :
    candidatePaths cfg8 "3.10" "/usr/lib" =
      candidate_lib_prefixes.flatMap (fun pre =>
        (candidateExtensions cfg8).flatMap (fun ext =>
          (candidateVersions "3.10").flatMap (fun ver =>
            (candidateAbiflags cfg8).map (fun abi =>
              pjoin "/usr/lib" (pre ++ "python" ++ ver ++ abi ++ ext))))) ∧
    get_python_library cfg8 fsTwoHits "3.10" =
      .ok (some ((candidatePaths cfg8 "3.10" "/usr/lib").getD 13 "")) :=
  C4_nested_order_first_hit cfg8 fsTwoHits "3.10" "/usr/lib" 13 (by decide)
    (by decide) (by decide) (by decide) (by decide)

/-- Exactly when `computeLibdir` raises: `LIBDIR` is unset and either the
multiarch join or the `LIBDEST` fallback dereferences it. -/
lemma computeLibdir_error_iff (c : Config) :
    computeLibdir c = .error .typeError ↔
      c.LIBDIR = none ∧
        ((c.MULTIARCH = true ∧ masdTruthy c.multiarchsubdir = true) ∨
          c.LIBDEST = none) := by
  unfold computeLibdir
  cases hM : c.MULTIARCH <;>
    cases hmt : masdTruthy c.multiarchsubdir <;>
      cases hL : c.LIBDIR <;>
        cases hD : c.LIBDEST <;>
          simp [hM, hmt, hL, hD]

/-- C5 (counterexample): with `LIBDIR` unset while `MULTIARCH` and a
nonempty multiarch subdirectory are declared, the function raises
(`TypeError` from `os.path.join(None, masd)`) instead of completing. -/
theorem C5_counterexample :
    get_python_library cfgNoLibdir [] "3.10" = .error .typeError := by
  decide

/-- C5 (amended): the function raises exactly when the candidate search is
entered, `LIBDIR` is unset, and either a multiarch subdirectory is declared
(the join with `None` raises) or `LIBDEST` is also unset (the fallback join
raises); in every other configuration it completes with a non-throwing
result. -/
theorem C5_raise_characterization (c : Config) (fs : Filesystem) (pv : String) :
    get_python_library c fs pv = .error .typeError ↔
      enterSearch c.LIBRARY = true ∧ c.LIBDIR = none ∧
        ((c.MULTIARCH = true ∧ masdTruthy c.multiarchsubdir = true) ∨
          c.LIBDEST = none) := by
  unfold get_python_library
  cases h1 : enterSearch c.LIBRARY
  · simp [h1]
  · cases hc : computeLibdir c with
    | error e =>
        cases e
        have h2 := (computeLibdir_error_iff c).mp hc
        simp [h1, hc, h2]
    | ok d =>
        have h2 : ¬(c.LIBDIR = none ∧
            ((c.MULTIARCH = true ∧ masdTruthy c.multiarchsubdir = true) ∨
              c.LIBDEST = none)) := by
          intro hcontra
          have herr := (computeLibdir_error_iff c).mpr hcontra
          rw [hc] at herr
          exact Except.noConfusion herr
        cases hf : (candidatePaths c pv d).find? (fun x => fsExists fs x) <;>
          simp [h1, hc, hf, h2]

/-- C6 (counterexample): the search accepts a path for which only a
directory entry exists (`os.path.exists`, not a regular-file check): with
`LIBRARY` absent and `/usr/lib/libpython3.10.so` present as a directory,
that path is returned although it is not a regular file. -/
theorem C6_counterexample :
    cfg8.LIBRARY = none ∧
    get_python_library cfg8 fsDirOnly "3.10" =
      .ok (some "/usr/lib/libpython3.10.so") ∧
    fsIsFile fsDirOnly "/usr/lib/libpython3.10.so" = false := by
  decide

/-- C6 (amended): whenever the search returns a candidate, that candidate
exists on disk in the `os.path.exists` sense (as any entry, not
necessarily a regular file). -/
theorem C6_search_hit_exists (c : Config) (fs : Filesystem)
    (pv d cand : String) (h1 : enterSearch c.LIBRARY = true)
    (h2 : computeLibdir c = .ok d)
    (h3 : (candidatePaths c pv d).find? (fun x => fsExists fs x) = some cand) :
    get_python_library c fs pv = .ok (some cand) ∧ fsExists fs cand = true :=
  ⟨search_hit_result c fs pv d cand h1 h2 h3, List.find?_some h3⟩

/-- C6 witness: the concrete hit `/usr/lib/libpython3.10.so` exists on the
filesystem that produced it. -/
theorem C6_search_hit_exists_witness :
    get_python_library cfg8 fsOne "3.10" =
      .ok (some "/usr/lib/libpython3.10.so") ∧
    fsExists fsOne "/usr/lib/libpython3.10.so" = true :=
  C6_search_hit_exists cfg8 fsOne "3.10" "/usr/lib"
    "/usr/lib/libpython3.10.so" (by decide) (by decide) (by decide)

/-- C7: the library directory is `LIBDIR` with the multiarch subdirectory
appended (one leading separator stripped) when `MULTIARCH` and a nonempty
`multiarchsubdir` are declared; plain `LIBDIR` otherwise; and when `LIBDIR`
is unset (and the multiarch join does not intervene), the absolute
`LIBDEST/../libs` sibling directory. -/
theorem C7_libdir_cases (c : Config) :
    (∀ d m, c.LIBDIR = some d → c.MULTIARCH = true →
      c.multiarchsubdir = some m → m ≠ "" →
      computeLibdir c = .ok (pjoin d (stripLeadSep m))) ∧
    (∀ d, c.LIBDIR = some d →
      (c.MULTIARCH = false ∨ masdTruthy c.multiarchsubdir = false) →
      computeLibdir c = .ok d) ∧
    (∀ dest, c.LIBDIR = none →
      (c.MULTIARCH = false ∨ masdTruthy c.multiarchsubdir = false) →
      c.LIBDEST = some dest →
      computeLibdir c = .ok (abspath c.cwd (pjoin (pjoin dest "..") "libs"))) := by
  refine ⟨?_, ?_, ?_⟩
  · intro d m hL hM hm hne
    unfold computeLibdir
    simp [hL, hM, hm, masdTruthy, hne]
  · intro d hL h2
    unfold computeLibdir
    rcases h2 with hM | hmt
    · simp [hM, hL]
    · cases hM : c.MULTIARCH <;> simp [hM, hmt, hL]
  · intro dest hL h2 hD
    unfold computeLibdir
    rcases h2 with hM | hmt
    · simp [hM, hL, hD]
    · cases hM : c.MULTIARCH <;> simp [hM, hmt, hL, hD]

/-- C7 witness: the three directory cases at concrete configurations —
multiarch append with separator stripping, plain `LIBDIR`, and the
`LIBDEST/../libs` fallback normalised to an absolute path. -/
theorem C7_libdir_cases_witness :
    computeLibdir cfgMA = .ok "/usr/lib/x86_64-linux-gnu" ∧
    computeLibdir cfg8 = .ok "/usr/lib" ∧
    computeLibdir cfgFallback = .ok "/py/lib/libs" := by
  refine ⟨?_, ?_, ?_⟩
  · have h := (C7_libdir_cases cfgMA).1 "/usr/lib" "/x86_64-linux-gnu" rfl rfl
      rfl (by decide)
    have e : pjoin "/usr/lib" (stripLeadSep "/x86_64-linux-gnu") =
        "/usr/lib/x86_64-linux-gnu" := by decide
    rw [e] at h
    exact h
  · exact (C7_libdir_cases cfg8).2.1 "/usr/lib" rfl (Or.inl rfl)
  · have h := (C7_libdir_cases cfgFallback).2.2 "/py/lib/python3.10" rfl
      (Or.inl rfl) rfl
    have e : abspath cfgFallback.cwd (pjoin (pjoin "/py/lib/python3.10" "..") "libs") =
        "/py/lib/libs" := by decide
    rw [e] at h
    exact h

/-- C10: with a present (static-archive) `LIBRARY` value entering the
search, a miss returns that original value unchanged; and a `none` result
is only possible when `LIBRARY` was absent to begin with. -/
theorem C10_library_preserved :
    (∀ (c : Config) (fs : Filesystem) (pv p d : String),
      c.LIBRARY = some p → enterSearch c.LIBRARY = true →
      computeLibdir c = .ok d →
      (∀ cand ∈ candidatePaths c pv d, fsExists fs cand = false) →
      get_python_library c fs pv = .ok (some p)) ∧
    (∀ (c : Config) (fs : Filesystem) (pv : String),
      get_python_library c fs pv = .ok none → c.LIBRARY = none) := by
  constructor
  · intro c fs pv p d hLib h1 h2 h3
    have h := no_hit_returns_library c fs pv d h1 h2 h3
    rwa [hLib] at h
  · intro c fs pv h
    unfold get_python_library at h
    split at h
    · split at h
      · exact absurd h (by simp)
      · split at h
        · simp at h
        · simpa using h
    · simpa using h

/-- C10 witness: the static value `python3.10.a` survives a miss, and a
run that does return `none` indeed started with no `LIBRARY` value. -/
theorem C10_library_preserved_witness :
    get_python_library cfgStatic [] "3.10" = .ok (some "python3.10.a") ∧
    cfg8.LIBRARY = none := by
  constructor
  · exact C10_library_preserved.1 cfgStatic [] "3.10" "python3.10.a" "/usr/lib"
      rfl (by decide) (by decide) (by decide)
  · exact C10_library_preserved.2 cfg8 [] "3.10" (by decide)
